import Mathlib

/-!
A shallow embedding of `src/monitor_engine.py` (the check cycle of a website
monitoring bot) together with proofs about its behaviour.

Modelling conventions:
- Python strings are Lean `String`s.  Python `str.lower` is modelled as a
  per-character map with `Char.toLower` (they agree on ASCII, which is all the
  source ever manipulates for its own markers); Python `str.startswith` and the
  `in` substring operator are modelled by structurally recursive functions over
  the character lists, so that every definition evaluates inside the kernel.
- The external libraries (`requests`, `BeautifulSoup`, `hashlib`) are black
  boxes: the environment `Env` carries them as function-valued parameters.
  `requests.get` either returns a body or raises; `fetch_html` converts the
  raised exception to the string marker the source uses.
- The snapshot directory is a mapping from file paths to file states.  A path
  is `absent`, holds a parseable snapshot record, or holds bytes that
  `json.load` rejects (`corrupt`) — the state a partially-written file is in.
- Exceptions are explicit: every operation that can raise returns an `Except`
  value, paired with the (possibly mutated) disk state, because a Python
  exception does not roll back writes that already happened.
- `write_log` appends a line to `snapshots/log.txt`; the model returns the
  emitted lines (in order) next to each result, and a cycle concatenates them.
-/

namespace MonitorEngine

/-- A snapshot record as serialised by `save_snapshot`
(monitor_engine.py, lines 145-149): a JSON object with a `timestamp`
and a `text` field. -/
structure Snapshot where
  timestamp : String
  text : String
deriving DecidableEq

/-- The observable state of one snapshot file path: missing, holding bytes
that `json.load` cannot parse (e.g. a partially-written record), or holding
a parseable snapshot. -/
inductive FileState
  | absent
  | corrupt
  | snap (s : Snapshot)
deriving DecidableEq

/-- The snapshot directory: the state of every file path. -/
def Store : Type := String → FileState

/-- One configured target from `sites_config.json`: `site["url"]` and
`site.get("keywords", [])` (monitor_engine.py, lines 200-201); the
missing-key default makes `keywords` total. -/
structure Site where
  url : String
  keywords : List String
deriving DecidableEq

/-- One entry of the list `run_check` returns (a Python dict).  Keys that a
given status does not set are `none`. -/
structure CheckResult where
  url : String
  status : String
  details : Option String := none
  matched_keywords : Option (List String) := none
deriving DecidableEq

/-- The Python exceptions that can escape the engine's own code paths:
the unbound-name error in `run_check`, `json.JSONDecodeError` from
`json.load`, and `OSError` from file writes. -/
inductive PyErr
  | nameError (missingName : String)
  | jsonDecodeError
  | osError
deriving DecidableEq

/-- Outcome of the file write attempted by `save_snapshot` at a given path.
The source opens the file with mode "w" (truncate-in-place) and then runs
`json.dump`; so a failure can happen before the file is opened (`failOpen`,
e.g. a permission error — the old bytes survive) or after it was opened
(`failMidWrite`, e.g. disk full during the dump — the file is left
truncated/partial, i.e. unparseable). -/
inductive SaveOutcome
  | ok
  | failOpen
  | failMidWrite
deriving DecidableEq

/-- The ambient world of one cycle: the black-box collaborators and the
current instant.  `httpGet` is `requests.get` (body on success, exception
text on failure), `soupGetText` is BeautifulSoup's `get_text`, `md5hex` is
`hashlib.md5(...).hexdigest()`, `saveOutcome` gives the fate of a write at
each path, and `now` is the (frozen) current time used both by
`datetime.now().isoformat()` and the log timestamp. -/
structure Env where
  httpGet : String → Except String String
  soupGetText : String → String
  md5hex : String → String
  saveOutcome : String → SaveOutcome
  now : String

/-- Python `str.lower`, as a character map (ASCII-faithful). -/
def py_lower (s : String) : String :=
  ⟨s.data.map Char.toLower⟩

/-- Python `str.startswith`. -/
def py_starts_with (s pat : String) : Bool :=
  pat.data.isPrefixOf s.data

/-- Membership of `needle` as a contiguous substring of `hay`
(a character-list version of Python's `needle in hay`). -/
def contains_list (needle : List Char) : List Char → Bool
  | [] => needle.isEmpty
  | c :: t => needle.isPrefixOf (c :: t) || contains_list needle t

/-- Python's `needle in hay` on strings. -/
def py_in (needle hay : String) : Bool :=
  contains_list needle.data hay.data

/-- `write_log` (lines 53-62) appends one line to `snapshots/log.txt`;
this is the line it emits for a message. -/
def log_line (env : Env) (message : String) : String :=
  "[" ++ env.now ++ "] " ++ message

/-- `fetch_html` (lines 69-84): returns the response body, or the string
marker "ERROR_FETCHING: {e}" when `requests.get` (or `raise_for_status`)
raised — errors are signalled inside the value space of the result. -/
def fetch_html (env : Env) (url : String) : String :=
  match env.httpGet url with
  | .ok body => body
  | .error e => "ERROR_FETCHING: " ++ e

/-- `extract_text` (lines 87-98): BeautifulSoup text extraction, a black box
carried by the environment. -/
def extract_text (env : Env) (html : String) : String :=
  env.soupGetText html

/-- The snapshot directory path.  The source derives it from the working
directory (lines 38-46, shadowing the earlier lines 30-35); within one run it
is a fixed string, which is all the model needs. -/
def SNAPSHOT_DIR : String := "app-3-companies-roles-event/snapshots"

/-- `snapshot_path` (lines 105-116): `SNAPSHOT_DIR` + "/" + md5(url) + ".json". -/
def snapshot_path (env : Env) (url : String) : String :=
  SNAPSHOT_DIR ++ "/" ++ env.md5hex url ++ ".json"

/-- `load_snapshot` (lines 119-133): `None` when the file is missing;
otherwise `json.load` of its contents, which raises `JSONDecodeError` on an
unparseable file — `run_check` does not catch that exception. -/
def load_snapshot (env : Env) (σ : Store) (url : String) :
    Except PyErr (Option Snapshot) :=
  match σ (snapshot_path env url) with
  | .absent => .ok none
  | .corrupt => .error .jsonDecodeError
  | .snap s => .ok (some s)

/-- Point update of a store. -/
def store_write (σ : Store) (path : String) (v : FileState) : Store :=
  fun p => if p = path then v else σ p

/-- `save_snapshot` (lines 136-149): `open(path, "w")` (truncating) then
`json.dump({timestamp, text})`.  The pair returned is (exception-or-unit,
disk state afterwards): a failure after the open leaves a truncated,
unparseable file in place of whatever was there before. -/
def save_snapshot (env : Env) (σ : Store) (url text : String) :
    Except PyErr Unit × Store :=
  let path := snapshot_path env url
  match env.saveOutcome path with
  | .ok => (.ok (), store_write σ path (.snap { timestamp := env.now, text := text }))
  | .failOpen => (.error .osError, σ)
  | .failMidWrite => (.error .osError, store_write σ path .corrupt)

/-- `keyword_match` (lines 156-168):
`[k for k in keywords if k.lower() in text_lower]`. -/
def keyword_match (text : String) (keywords : List String) : List String :=
  let text_lower := py_lower text
  keywords.filter (fun k => py_in (py_lower k) text_lower)

/-- A Python single quote, for rendering the `repr` of a keyword list. -/
def py_quote : String := ⟨[Char.ofNat 39]⟩

/-- Approximation of Python's `repr` of a list of strings, as interpolated
into the KEYWORD CHANGE log message (escaping inside keywords is not
modelled; no claim depends on the exact log text). -/
def py_list_repr (l : List String) : String :=
  "[" ++ String.intercalate ", " (l.map (fun s => py_quote ++ s ++ py_quote)) ++ "]"

/-- The body of `run_check`'s per-site loop (lines 199-252), for one site:
fetch, short-circuit on the error marker, extract, load the prior snapshot,
classify, log, and conditionally save.  Returns (result-or-exception, disk
state afterwards, log lines emitted).  Exceptions from `load_snapshot` /
`save_snapshot` are not caught anywhere in `run_check`: they abort the loop,
losing the result list, while keeping any disk mutation that already
happened.  Branch order and the log/append/save ordering follow the source:
in the changed branches the log line is written before the save, in the
initialization branch the save comes first. -/
def process_site (env : Env) (σ : Store) (site : Site) :
    Except PyErr CheckResult × Store × List String :=
  let url := site.url
  let html := fetch_html env url
  if py_starts_with html "ERROR_FETCHING" then
    (.ok { url := url, status := "error", details := some html }, σ,
      [log_line env ("ERROR | " ++ url ++ " | " ++ html)])
  else
    let text := extract_text env html
    match load_snapshot env σ url with
    | .error e => (.error e, σ, [])
    | .ok none =>
      match save_snapshot env σ url text with
      | (.error e, σ1) => (.error e, σ1, [])
      | (.ok _, σ1) =>
        (.ok { url := url, status := "initialized" }, σ1,
          [log_line env ("INIT | " ++ url)])
    | .ok (some previous) =>
      if text = previous.text then
        (.ok { url := url, status := "no-change" }, σ,
          [log_line env ("NO CHANGE | " ++ url)])
      else
        let matched := keyword_match text site.keywords
        if matched.isEmpty then
          match save_snapshot env σ url text with
          | (.error e, σ1) =>
            (.error e, σ1, [log_line env ("CHANGE BUT NO KEYWORDS | " ++ url)])
          | (.ok _, σ1) =>
            (.ok { url := url, status := "changed-but-no-keywords" }, σ1,
              [log_line env ("CHANGE BUT NO KEYWORDS | " ++ url)])
        else
          match save_snapshot env σ url text with
          | (.error e, σ1) =>
            (.error e, σ1,
              [log_line env ("KEYWORD CHANGE | " ++ url ++ " | keywords: " ++
                py_list_repr matched)])
          | (.ok _, σ1) =>
            (.ok { url := url, status := "keyword-change",
                   matched_keywords := some matched }, σ1,
              [log_line env ("KEYWORD CHANGE | " ++ url ++ " | keywords: " ++
                py_list_repr matched)])

/-- The result-accumulating loop of `run_check` over the configured sites
(lines 196-254).  An uncaught exception from a site aborts the whole loop:
no result list is returned, though disk mutations and log lines already
performed persist. -/
def run_cycle (env : Env) (sites : List Site) (σ : Store) :
    Except PyErr (List CheckResult) × Store × List String :=
  match sites with
  | [] => (.ok [], σ, [])
  | site :: rest =>
    match process_site env σ site with
    | (.error e, σ1, lg) => (.error e, σ1, lg)
    | (.ok r, σ1, lg) =>
      match run_cycle env rest σ1 with
      | (.error e, σ2, lg2) => (.error e, σ2, lg ++ lg2)
      | (.ok rs, σ2, lg2) => (.ok (r :: rs), σ2, lg ++ lg2)

/-- The state of the configuration source `sites_config.json` as `run_check`
would observe it: missing, present but rejected by `json.load`, or parsed
into a site list.  (Other parseable-but-ill-shaped contents, e.g. a JSON
object instead of a list, are not modelled; no claim depends on them.) -/
inductive ConfigSource
  | missing
  | invalidJson
  | parsed (sites : List Site)

/-- `run_check` (lines 175-254) exactly as written.  Its first executable
statement, `if not os.path.exists(CONFIG_FILE)` (line 189), reads the module
global `CONFIG_FILE` — and no statement of monitor_engine.py ever assigns
that name (it is bound only in streamlit_app.py, line 6, a different module
whose globals are not visible here).  Python therefore raises `NameError`
on every call, before the configuration or any site is touched. -/
def run_check (env : Env) (σ : Store) :
    Except PyErr (List CheckResult) × Store × List String :=
  (.error (.nameError "CONFIG_FILE"), σ, [])

/-- `run_check` lines 187-254 under the supposition that the module global
`CONFIG_FILE` is bound (with the value streamlit_app.py line 6 gives it),
which is the evident intent: a missing file logs and returns the empty list
(lines 189-191); a present file is fed to `json.load` with no exception
handler (lines 193-194), so unparseable contents raise `JSONDecodeError`
out of the function; a parsed site list runs the cycle loop. -/
def run_check_with_config (env : Env) (cfg : ConfigSource) (σ : Store) :
    Except PyErr (List CheckResult) × Store × List String :=
  match cfg with
  | .missing => (.ok [], σ, [log_line env "ERROR: sites_config.json missing."])
  | .invalidJson => (.error .jsonDecodeError, σ, [])
  | .parsed sites => run_cycle env sites σ

/-- The text the engine computes for a url: extraction applied to the fetch. -/
def extracted (env : Env) (url : String) : String :=
  extract_text env (fetch_html env url)

/-- The fetch-failed test of line 205: the fetched value carries the
error marker. -/
def fetch_failed (env : Env) (url : String) : Bool :=
  py_starts_with (fetch_html env url) "ERROR_FETCHING"

/-- State invariant driving the idempotence property: the url fetches
without the error marker, and its snapshot file holds a parseable record
whose text is exactly what the engine would extract for that url now. -/
def Inv (env : Env) (σ : Store) (url : String) : Prop :=
  fetch_failed env url = false ∧
  ∃ ts, σ (snapshot_path env url) =
    .snap { timestamp := ts, text := extracted env url }

/-- An injective stand-in for the md5 hex digest, used in concrete
evaluations. -/
def idHash : String → String := fun s => s

/-- A concrete environment: one url that times out, one whose 2xx response
body happens to carry the error marker, and all others serving a fixed page;
extraction is the identity and every file write succeeds. -/
def envA : Env :=
  { httpGet := fun u =>
      if u = "bad.example" then .error "timed out"
      else if u = "marker.example" then .ok "ERROR_FETCHING: soft failure body"
      else .ok "<p>Layoffs at Example</p>"
  , soupGetText := fun h => h
  , md5hex := idHash
  , saveOutcome := fun _ => .ok
  , now := "2026-01-01T00:00:00" }

/-- `envA` with every file write failing after the truncating open. -/
def envC9mid : Env := { envA with saveOutcome := fun _ => .failMidWrite }

/-- `envA` with every file write failing before the file is opened. -/
def envC9open : Env := { envA with saveOutcome := fun _ => .failOpen }

/-- The empty snapshot directory. -/
def σ0 : Store := fun _ => .absent

/-- A directory holding a valid prior snapshot (text differing from the
current page) for "site.example". -/
def σA_old : Store :=
  store_write σ0 (snapshot_path envA "site.example")
    (.snap { timestamp := "2025-12-31T00:00:00", text := "old text" })

/-- A directory whose snapshot for "site.example" equals the current page. -/
def σA_same : Store :=
  store_write σ0 (snapshot_path envA "site.example")
    (.snap { timestamp := "2025-12-31T00:00:00", text := "<p>Layoffs at Example</p>" })

/-- A directory whose snapshot file for "site.example" is unparseable. -/
def σA_corrupt : Store :=
  store_write σ0 (snapshot_path envA "site.example") .corrupt

def siteW : Site := { url := "site.example", keywords := ["Jobs", "layoffs"] }

def siteEmptyKw : Site := { url := "site.example", keywords := [] }

def siteBad : Site := { url := "bad.example", keywords := [] }

def siteMarker : Site := { url := "marker.example", keywords := [] }

/-- Helper: the no-change branch of the per-site loop (lines 226-230).
When the fetch carries no error marker and the stored snapshot's text equals
the freshly extracted text, the site is classified `no-change` and the disk
state is returned untouched. -/
theorem process_site_no_change (env : Env) (σ : Store) (site : Site)
    (prior : Snapshot)
    (hfetch : fetch_failed env site.url = false)
    (hprior : σ (snapshot_path env site.url) = .snap prior)
    (heq : extracted env site.url = prior.text) :
    process_site env σ site =
      (.ok { url := site.url, status := "no-change" }, σ,
       [log_line env ("NO CHANGE | " ++ site.url)]) := by
  have hf : py_starts_with (fetch_html env site.url) "ERROR_FETCHING" = false := hfetch
  have ht : extract_text env (fetch_html env site.url) = prior.text := heq
  simp only [process_site, hf, Bool.false_eq_true, if_false, load_snapshot, hprior,
    ht, if_pos rfl, eq_self_iff_true, if_true]

/-- C1: the claim says a missing or malformed configuration source must not
crash the cycle and must yield the empty result list.  The code crashes:
`run_check` reads the unbound module global `CONFIG_FILE` and raises
`NameError` on every call; and even with that binding supplied, a present
but malformed `sites_config.json` makes the unguarded `json.load` raise
`JSONDecodeError` out of the cycle.  Only the missing-file case behaves as
claimed. -/
theorem c1_config_crash :
    run_check envA σ0 = (.error (.nameError "CONFIG_FILE"), σ0, []) ∧
    run_check_with_config envA .invalidJson σ0 =
      (.error .jsonDecodeError, σ0, []) ∧
    run_check_with_config envA .missing σ0 =
      (.ok [], σ0, [log_line envA "ERROR: sites_config.json missing."]) :=
  ⟨rfl, rfl, rfl⟩

/-- C2: first observation.  A target with no prior snapshot whose fetch
succeeds (and whose snapshot write is not hit by a storage fault) yields
status `initialized`, and a subsequent load of that target's snapshot
returns exactly the extracted text of that fetch, stamped with the current
instant. -/
theorem c2_first_observation (env : Env) (σ : Store) (site : Site)
    (hfetch : fetch_failed env site.url = false)
    (hprior : σ (snapshot_path env site.url) = .absent)
    (hsave : env.saveOutcome (snapshot_path env site.url) = .ok) :
    process_site env σ site =
      (.ok { url := site.url, status := "initialized" },
       store_write σ (snapshot_path env site.url)
         (.snap { timestamp := env.now, text := extracted env site.url }),
       [log_line env ("INIT | " ++ site.url)]) ∧
    load_snapshot env (process_site env σ site).2.1 site.url =
      .ok (some { timestamp := env.now, text := extracted env site.url }) := by
  have hf : py_starts_with (fetch_html env site.url) "ERROR_FETCHING" = false := hfetch
  have h1 : process_site env σ site =
      (.ok { url := site.url, status := "initialized" },
       store_write σ (snapshot_path env site.url)
         (.snap { timestamp := env.now, text := extracted env site.url }),
       [log_line env ("INIT | " ++ site.url)]) := by
    simp only [process_site, hf, Bool.false_eq_true, if_false, load_snapshot, hprior,
      save_snapshot, hsave, extracted, extract_text]
  refine ⟨h1, ?_⟩
  rw [h1]
  simp [load_snapshot, store_write]

/-- C2 witness: concretely, a never-seen target is initialized and its
snapshot then loads back with the fetched page's extracted text. -/
theorem c2_first_observation_witness :
    fetch_failed envA "site.example" = false ∧
    σ0 (snapshot_path envA "site.example") = .absent ∧
    envA.saveOutcome (snapshot_path envA "site.example") = .ok ∧
    load_snapshot envA (process_site envA σ0 siteW).2.1 "site.example" =
      .ok (some { timestamp := "2026-01-01T00:00:00",
                  text := "<p>Layoffs at Example</p>" }) := by
  refine ⟨rfl, rfl, rfl, ?_⟩
  exact (c2_first_observation envA σ0 siteW rfl rfl rfl).2

/-- C4: frame property of an unchanged page.  When the extracted text is
byte-for-byte equal to the stored snapshot's text the result is `no-change`,
the disk state is returned untouched (no snapshot write), and the keyword
matcher is irrelevant: the outcome is identical for every keyword list. -/
theorem c4_no_change_frame (env : Env) (σ : Store) (site : Site)
    (prior : Snapshot)
    (hfetch : fetch_failed env site.url = false)
    (hprior : σ (snapshot_path env site.url) = .snap prior)
    (heq : extracted env site.url = prior.text) :
    process_site env σ site =
      (.ok { url := site.url, status := "no-change" }, σ,
       [log_line env ("NO CHANGE | " ++ site.url)]) ∧
    ∀ kws, process_site env σ { url := site.url, keywords := kws } =
      process_site env σ site := by
  have h1 := process_site_no_change env σ site prior hfetch hprior heq
  refine ⟨h1, fun kws => ?_⟩
  have h2 := process_site_no_change env σ { url := site.url, keywords := kws }
    prior hfetch hprior heq
  rw [h1, h2]

/-- C4 witness: concretely, an unchanged page is reported `no-change`, the
store cell is untouched, and swapping the keyword list changes nothing. -/
theorem c4_no_change_frame_witness :
    fetch_failed envA "site.example" = false ∧
    σA_same (snapshot_path envA "site.example") =
      .snap { timestamp := "2025-12-31T00:00:00",
              text := "<p>Layoffs at Example</p>" } ∧
    extracted envA "site.example" = "<p>Layoffs at Example</p>" ∧
    (process_site envA σA_same siteW).1 =
      .ok { url := "site.example", status := "no-change" } ∧
    process_site envA σA_same { url := "site.example", keywords := ["other"] } =
      process_site envA σA_same siteW := by
  have h := c4_no_change_frame envA σA_same siteW
    { timestamp := "2025-12-31T00:00:00", text := "<p>Layoffs at Example</p>" }
    rfl rfl rfl
  exact ⟨rfl, rfl, rfl, congrArg Prod.fst h.1, h.2 ["other"]⟩

/-- C10: a 2xx response whose body itself starts with the `ERROR_FETCHING`
marker is indistinguishable from a fetch failure, because fetch errors are
signalled in the value space of the returned string: the target is
classified `error` with the body as details and the disk state is returned
untouched (no extraction or snapshot interaction has any effect). -/
theorem c10_error_marker_body (env : Env) (σ : Store) (site : Site)
    (body : String)
    (hhttp : env.httpGet site.url = .ok body)
    (hmark : py_starts_with body "ERROR_FETCHING" = true) :
    process_site env σ site =
      (.ok { url := site.url, status := "error", details := some body }, σ,
       [log_line env ("ERROR | " ++ site.url ++ " | " ++ body)]) := by
  have hb : fetch_html env site.url = body := by
    simp [fetch_html, hhttp]
  simp only [process_site, hb, hmark, if_true]

/-- C10 witness: concretely, a successfully fetched body that begins with
the marker string is reported as a fetch error carrying that body. -/
theorem c10_error_marker_body_witness :
    envA.httpGet "marker.example" = .ok "ERROR_FETCHING: soft failure body" ∧
    py_starts_with "ERROR_FETCHING: soft failure body" "ERROR_FETCHING" = true ∧
    (process_site envA σ0 siteMarker).1 =
      .ok { url := "marker.example", status := "error",
            details := some "ERROR_FETCHING: soft failure body" } := by
  refine ⟨rfl, by decide, ?_⟩
  exact congrArg Prod.fst
    (c10_error_marker_body envA σ0 siteMarker "ERROR_FETCHING: soft failure body"
      rfl (by decide))

/-- C3: keyword precedence.  A successfully fetched target whose extracted
text differs from the stored snapshot and contains at least one configured
keyword (case-insensitively) is classified `keyword-change`, and its
`matched_keywords` is the keyword-matcher's output: an order-preserving
sublist of the configured keywords containing exactly those keywords that
occur case-insensitively in the text. -/
theorem c3_keyword_precedence (env : Env) (σ : Store) (site : Site)
    (prior : Snapshot)
    (hfetch : fetch_failed env site.url = false)
    (hprior : σ (snapshot_path env site.url) = .snap prior)
    (hdiff : extracted env site.url ≠ prior.text)
    (hkw : ∃ k ∈ site.keywords,
      py_in (py_lower k) (py_lower (extracted env site.url)) = true)
    (hsave : env.saveOutcome (snapshot_path env site.url) = .ok) :
    process_site env σ site =
      (.ok { url := site.url, status := "keyword-change",
             matched_keywords :=
               some (keyword_match (extracted env site.url) site.keywords) },
       store_write σ (snapshot_path env site.url)
         (.snap { timestamp := env.now, text := extracted env site.url }),
       [log_line env ("KEYWORD CHANGE | " ++ site.url ++ " | keywords: " ++
          py_list_repr (keyword_match (extracted env site.url) site.keywords))]) ∧
    (keyword_match (extracted env site.url) site.keywords).Sublist site.keywords ∧
    ∀ k, k ∈ keyword_match (extracted env site.url) site.keywords ↔
      (k ∈ site.keywords ∧
       py_in (py_lower k) (py_lower (extracted env site.url)) = true) := by
  have hf : py_starts_with (fetch_html env site.url) "ERROR_FETCHING" = false := hfetch
  have ht : env.soupGetText (fetch_html env site.url) ≠ prior.text := hdiff
  obtain ⟨k0, hk0, hp0⟩ := hkw
  have hmem : k0 ∈ keyword_match (extracted env site.url) site.keywords := by
    simp only [keyword_match]
    exact List.mem_filter.mpr ⟨hk0, hp0⟩
  have hne : keyword_match (extracted env site.url) site.keywords ≠ [] :=
    List.ne_nil_of_mem hmem
  have hie : (keyword_match (env.soupGetText (fetch_html env site.url))
      site.keywords).isEmpty = false := by
    cases hc : keyword_match (env.soupGetText (fetch_html env site.url))
        site.keywords with
    | nil => exact absurd hc hne
    | cons a t => rfl
  refine ⟨?_, ?_, ?_⟩
  · simp only [process_site, hf, Bool.false_eq_true, if_false, load_snapshot, hprior,
      if_neg ht, hie, save_snapshot, hsave, extracted, extract_text]
  · simp only [keyword_match]
    exact List.filter_sublist site.keywords
  · intro k
    simp only [keyword_match]
    exact List.mem_filter

/-- C3 witness: concretely, a changed page containing "Layoffs" matches the
configured keyword "layoffs" case-insensitively (and not "Jobs"), in
configured order. -/
theorem c3_keyword_precedence_witness :
    fetch_failed envA "site.example" = false ∧
    σA_old (snapshot_path envA "site.example") =
      .snap { timestamp := "2025-12-31T00:00:00", text := "old text" } ∧
    extracted envA "site.example" ≠ "old text" ∧
    (∃ k ∈ siteW.keywords,
      py_in (py_lower k) (py_lower (extracted envA "site.example")) = true) ∧
    (process_site envA σA_old siteW).1 =
      .ok { url := "site.example", status := "keyword-change",
            matched_keywords := some ["layoffs"] } := by
  refine ⟨rfl, rfl, by decide, by decide, ?_⟩
  exact congrArg Prod.fst
    (c3_keyword_precedence envA σA_old siteW
      { timestamp := "2025-12-31T00:00:00", text := "old text" }
      rfl rfl (by decide) (by decide) rfl).1

/-- C6: no false positive.  A successfully fetched target whose extracted
text differs from the stored snapshot but contains none of the configured
keywords (in particular, a target with an empty keyword list — the matcher
yields the empty subset, never "match everything") is classified
`changed-but-no-keywords`, never `keyword-change`. -/
theorem c6_changed_no_keywords (env : Env) (σ : Store) (site : Site)
    (prior : Snapshot)
    (hfetch : fetch_failed env site.url = false)
    (hprior : σ (snapshot_path env site.url) = .snap prior)
    (hdiff : extracted env site.url ≠ prior.text)
    (hnokw : ∀ k ∈ site.keywords,
      py_in (py_lower k) (py_lower (extracted env site.url)) = false)
    (hsave : env.saveOutcome (snapshot_path env site.url) = .ok) :
    process_site env σ site =
      (.ok { url := site.url, status := "changed-but-no-keywords" },
       store_write σ (snapshot_path env site.url)
         (.snap { timestamp := env.now, text := extracted env site.url }),
       [log_line env ("CHANGE BUT NO KEYWORDS | " ++ site.url)]) ∧
    keyword_match (extracted env site.url) site.keywords = [] := by
  have hf : py_starts_with (fetch_html env site.url) "ERROR_FETCHING" = false := hfetch
  have ht : env.soupGetText (fetch_html env site.url) ≠ prior.text := hdiff
  have hnokw2 : ∀ k ∈ site.keywords,
      py_in (py_lower k) (py_lower (env.soupGetText (fetch_html env site.url))) = false :=
    hnokw
  have hkm : keyword_match (env.soupGetText (fetch_html env site.url))
      site.keywords = [] := by
    simp only [keyword_match]
    refine List.filter_eq_nil_iff.mpr (fun k hk => ?_)
    rw [hnokw2 k hk]
    simp
  have hie : (keyword_match (env.soupGetText (fetch_html env site.url))
      site.keywords).isEmpty = true := by
    rw [hkm]
    rfl
  refine ⟨?_, hkm⟩
  simp only [process_site, hf, Bool.false_eq_true, if_false, load_snapshot, hprior,
    if_neg ht, hie, if_true, save_snapshot, hsave, extracted, extract_text]

/-- C6 witness: concretely, a changed page under an empty keyword list is
reported `changed-but-no-keywords` and the match set is empty. -/
theorem c6_changed_no_keywords_witness :
    fetch_failed envA "site.example" = false ∧
    σA_old (snapshot_path envA "site.example") =
      .snap { timestamp := "2025-12-31T00:00:00", text := "old text" } ∧
    extracted envA "site.example" ≠ "old text" ∧
    (∀ k ∈ siteEmptyKw.keywords,
      py_in (py_lower k) (py_lower (extracted envA "site.example")) = false) ∧
    (process_site envA σA_old siteEmptyKw).1 =
      .ok { url := "site.example", status := "changed-but-no-keywords" } ∧
    keyword_match (extracted envA "site.example") siteEmptyKw.keywords = [] := by
  have h := c6_changed_no_keywords envA σA_old siteEmptyKw
    { timestamp := "2025-12-31T00:00:00", text := "old text" }
    rfl rfl (by decide) (by decide) rfl
  exact ⟨rfl, rfl, by decide, by decide, congrArg Prod.fst h.1, h.2⟩

/-- Helper: one unfolding step of the cycle loop. -/
theorem run_cycle_cons (env : Env) (s : Site) (rest : List Site) (σ : Store) :
    run_cycle env (s :: rest) σ =
      match process_site env σ s with
      | (.error e, σ1, lg) => (.error e, σ1, lg)
      | (.ok r, σ1, lg) =>
        match run_cycle env rest σ1 with
        | (.error e, σ2, lg2) => (.error e, σ2, lg ++ lg2)
        | (.ok rs, σ2, lg2) => (.ok (r :: rs), σ2, lg ++ lg2) := rfl

/-- C7: fetch-failure isolation.  When target A's fetch fails and target
B's succeeds, A yields an `error` result carrying the cause text with the
disk state untouched (no snapshot read or write for A), and the cycle over
[A, B] returns A's error followed by exactly the result, disk state and log
that a cycle over [B] alone would produce from the same starting state —
in registry order. -/
theorem c7_fetch_failure_isolation (env : Env) (σ : Store) (A B : Site)
    (resB : List CheckResult) (σB : Store) (lgB : List String)
    (hA : fetch_failed env A.url = true)
    (hB : fetch_failed env B.url = false)
    (hrun : run_cycle env [B] σ = (.ok resB, σB, lgB)) :
    (process_site env σ A).2.1 = σ ∧
    run_cycle env [A, B] σ =
      (.ok ({ url := A.url, status := "error",
              details := some (fetch_html env A.url) } :: resB),
       σB,
       log_line env ("ERROR | " ++ A.url ++ " | " ++ fetch_html env A.url) :: lgB) := by
  have hf : py_starts_with (fetch_html env A.url) "ERROR_FETCHING" = true := hA
  have hps : process_site env σ A =
      (.ok { url := A.url, status := "error",
             details := some (fetch_html env A.url) }, σ,
       [log_line env ("ERROR | " ++ A.url ++ " | " ++ fetch_html env A.url)]) := by
    simp only [process_site, hf, if_true]
  constructor
  · rw [hps]
  · rw [run_cycle_cons]
    simp only [hps]
    rw [hrun]
    rfl

/-- C7 witness: concretely, a timed-out target followed by a healthy one
produces the error result and the healthy target's initialization, in
order. -/
theorem c7_fetch_failure_isolation_witness :
    fetch_failed envA "bad.example" = true ∧
    fetch_failed envA "site.example" = false ∧
    (run_cycle envA [siteBad, siteW] σ0).1 =
      .ok [{ url := "bad.example", status := "error",
             details := some "ERROR_FETCHING: timed out" },
           { url := "site.example", status := "initialized" }] := by
  refine ⟨rfl, rfl, ?_⟩
  exact congrArg Prod.fst
    (c7_fetch_failure_isolation envA σ0 siteBad siteW
      [{ url := "site.example", status := "initialized" }]
      (run_cycle envA [siteW] σ0).2.1 (run_cycle envA [siteW] σ0).2.2
      rfl rfl rfl).2

/-- C8 counterexample: with a corrupt snapshot file for the first target,
the uncaught `JSONDecodeError` from `load_snapshot` aborts the whole cycle:
`run_cycle` produces no result list at all, and the second (healthy) target
is never processed — refuting the claim that every per-target failure,
including storage failures, is contained. -/
theorem c8_containment_counterexample :
    run_cycle envA [siteW, siteBad] σA_corrupt =
      (.error .jsonDecodeError, σA_corrupt, []) := rfl

/-- C8 (amended): fetch failures are contained per target — the failing
target contributes a value-level `error` result, the disk state is passed
through untouched, and the remaining targets are processed exactly as if
run on their own.  Storage failures are not contained: an unparseable
snapshot file makes the cycle abort with an uncaught `JSONDecodeError`
(results lost, later targets unprocessed), and a failing snapshot write
aborts it with an uncaught `OSError`. -/
theorem c8_failure_containment_amended (env : Env) (σ : Store) (site : Site)
    (rest : List Site) :
    (fetch_failed env site.url = true →
      run_cycle env (site :: rest) σ =
        ((run_cycle env rest σ).1.map
           (fun rs => { url := site.url, status := "error",
                        details := some (fetch_html env site.url) } :: rs),
         (run_cycle env rest σ).2.1,
         log_line env ("ERROR | " ++ site.url ++ " | " ++ fetch_html env site.url)
           :: (run_cycle env rest σ).2.2)) ∧
    (fetch_failed env site.url = false →
      σ (snapshot_path env site.url) = .corrupt →
      run_cycle env (site :: rest) σ = (.error .jsonDecodeError, σ, [])) ∧
    (fetch_failed env site.url = false →
      σ (snapshot_path env site.url) = .absent →
      env.saveOutcome (snapshot_path env site.url) ≠ .ok →
      (run_cycle env (site :: rest) σ).1 = .error .osError) := by
  refine ⟨fun hA => ?_, fun hf hc => ?_, fun hf ha hs => ?_⟩
  · have hf : py_starts_with (fetch_html env site.url) "ERROR_FETCHING" = true := hA
    have hps : process_site env σ site =
        (.ok { url := site.url, status := "error",
               details := some (fetch_html env site.url) }, σ,
         [log_line env ("ERROR | " ++ site.url ++ " | " ++ fetch_html env site.url)]) := by
      simp only [process_site, hf, if_true]
    rw [run_cycle_cons]
    simp only [hps]
    rcases hrc : run_cycle env rest σ with ⟨e2, σ2, lg2⟩
    cases e2 <;> rfl
  · have hf2 : py_starts_with (fetch_html env site.url) "ERROR_FETCHING" = false := hf
    have hps : process_site env σ site = (.error .jsonDecodeError, σ, []) := by
      simp only [process_site, hf2, Bool.false_eq_true, if_false, load_snapshot, hc]
    rw [run_cycle_cons]
    simp only [hps]
  · have hf2 : py_starts_with (fetch_html env site.url) "ERROR_FETCHING" = false := hf
    cases ho : env.saveOutcome (snapshot_path env site.url) with
    | ok => exact absurd ho hs
    | failOpen =>
      have hps : process_site env σ site = (.error .osError, σ, []) := by
        simp only [process_site, hf2, Bool.false_eq_true, if_false, load_snapshot, ha,
          save_snapshot, ho]
      rw [run_cycle_cons]
      simp only [hps]
    | failMidWrite =>
      have hps : process_site env σ site =
          (.error .osError, store_write σ (snapshot_path env site.url) .corrupt, []) := by
        simp only [process_site, hf2, Bool.false_eq_true, if_false, load_snapshot, ha,
          save_snapshot, ho]
      rw [run_cycle_cons]
      simp only [hps]

/-- C8 witness: the three amended behaviours at concrete inputs — a
contained fetch failure, a cycle aborted by a corrupt snapshot file, and a
cycle aborted by a failing snapshot write. -/
theorem c8_failure_containment_witness :
    (run_cycle envA [siteBad] σ0).1 =
      .ok [{ url := "bad.example", status := "error",
             details := some "ERROR_FETCHING: timed out" }] ∧
    run_cycle envA [siteW, siteBad] σA_corrupt =
      (.error .jsonDecodeError, σA_corrupt, []) ∧
    (run_cycle envC9mid [siteW] σ0).1 = .error .osError := by
  refine ⟨?_, ?_, ?_⟩
  · exact congrArg Prod.fst ((c8_failure_containment_amended envA σ0 siteBad []).1 rfl)
  · exact (c8_failure_containment_amended envA σA_corrupt siteW [siteBad]).2.1 rfl rfl
  · exact (c8_failure_containment_amended envC9mid σ0 siteW []).2.2 rfl rfl (by decide)

/-- C9 counterexample: starting from a valid prior snapshot for the key, a
save that fails after the truncating open leaves an unparseable record: the
failed save raises `OSError`, a subsequent load of the same key raises
`JSONDecodeError`, even though the very same load succeeded before the
failed save — the valid prior snapshot was clobbered with partial data,
refuting all-or-nothing saves. -/
theorem c9_atomic_save_counterexample :
    (save_snapshot envC9mid σA_old "site.example" "new text").1 = .error .osError ∧
    load_snapshot envC9mid (save_snapshot envC9mid σA_old "site.example" "new text").2
      "site.example" = .error .jsonDecodeError ∧
    load_snapshot envC9mid σA_old "site.example" =
      .ok (some { timestamp := "2025-12-31T00:00:00", text := "old text" }) :=
  ⟨rfl, rfl, rfl⟩

/-- C9 (amended): a snapshot save is atomic only in the two extreme cases —
a fully successful save replaces the record, and a failure before the file
is opened leaves the disk untouched.  A failure after the truncating open
leaves a partially-written, unparseable record visible to a subsequent
load, clobbering any valid prior snapshot at that key. -/
theorem c9_atomic_save_amended (env : Env) (σ : Store) (url text : String) :
    (env.saveOutcome (snapshot_path env url) = .ok →
      (save_snapshot env σ url text).1 = .ok () ∧
      load_snapshot env (save_snapshot env σ url text).2 url =
        .ok (some { timestamp := env.now, text := text })) ∧
    (env.saveOutcome (snapshot_path env url) = .failOpen →
      (save_snapshot env σ url text).1 = .error .osError ∧
      (save_snapshot env σ url text).2 = σ) ∧
    (env.saveOutcome (snapshot_path env url) = .failMidWrite →
      (save_snapshot env σ url text).1 = .error .osError ∧
      load_snapshot env (save_snapshot env σ url text).2 url =
        .error .jsonDecodeError) := by
  refine ⟨fun h => ?_, fun h => ?_, fun h => ?_⟩ <;>
    simp [save_snapshot, h, load_snapshot, store_write]

/-- C9 witness: the three amended behaviours at concrete inputs — a
successful save loads back, a failure before open preserves the store, and
a failure after open leaves an unparseable record. -/
theorem c9_atomic_save_witness :
    (envA.saveOutcome (snapshot_path envA "site.example") = .ok ∧
      load_snapshot envA (save_snapshot envA σA_old "site.example" "new text").2
        "site.example" =
        .ok (some { timestamp := "2026-01-01T00:00:00", text := "new text" })) ∧
    (envC9open.saveOutcome (snapshot_path envC9open "site.example") = .failOpen ∧
      (save_snapshot envC9open σA_old "site.example" "new text").2 = σA_old) ∧
    (envC9mid.saveOutcome (snapshot_path envC9mid "site.example") = .failMidWrite ∧
      load_snapshot envC9mid (save_snapshot envC9mid σA_old "site.example" "new text").2
        "site.example" = .error .jsonDecodeError) := by
  refine ⟨⟨rfl, ?_⟩, ⟨rfl, ?_⟩, ⟨rfl, ?_⟩⟩
  · exact ((c9_atomic_save_amended envA σA_old "site.example" "new text").1 rfl).2
  · exact ((c9_atomic_save_amended envC9open σA_old "site.example" "new text").2.1 rfl).2
  · exact ((c9_atomic_save_amended envC9mid σA_old "site.example" "new text").2.2 rfl).2

/-- Helper: a save touches no path other than its own snapshot path. -/
theorem save_snapshot_frame (env : Env) (σ : Store) (url text p : String)
    (hp : p ≠ snapshot_path env url) :
    (save_snapshot env σ url text).2 p = σ p := by
  cases ho : env.saveOutcome (snapshot_path env url) <;>
    simp [save_snapshot, ho, store_write, hp]

/-- Helper: processing one site touches no path other than that site's
snapshot path, whatever branch is taken. -/
theorem process_site_frame (env : Env) (σ : Store) (site : Site) (p : String)
    (hp : p ≠ snapshot_path env site.url) :
    (process_site env σ site).2.1 p = σ p := by
  cases hf : py_starts_with (fetch_html env site.url) "ERROR_FETCHING" with
  | true => simp only [process_site, hf, if_true]
  | false =>
    cases hσp : σ (snapshot_path env site.url) with
    | corrupt =>
      have hl : load_snapshot env σ site.url = .error .jsonDecodeError := by
        simp [load_snapshot, hσp]
      simp only [process_site, hf, Bool.false_eq_true, if_false, hl]
    | absent =>
      have hl : load_snapshot env σ site.url = .ok none := by
        simp [load_snapshot, hσp]
      have hsf := save_snapshot_frame env σ site.url
        (extract_text env (fetch_html env site.url)) p hp
      rcases ho : save_snapshot env σ site.url
          (extract_text env (fetch_html env site.url)) with ⟨e, σ1⟩
      rw [ho] at hsf
      cases e <;>
        simp only [process_site, hf, Bool.false_eq_true, if_false, hl, ho] <;>
        exact hsf
    | snap sn =>
      have hl : load_snapshot env σ site.url = .ok (some sn) := by
        simp [load_snapshot, hσp]
      by_cases ht : extract_text env (fetch_html env site.url) = sn.text
      · simp only [process_site, hf, Bool.false_eq_true, if_false, hl, if_pos ht]
      · have hsf := save_snapshot_frame env σ site.url
          (extract_text env (fetch_html env site.url)) p hp
        rcases ho : save_snapshot env σ site.url
            (extract_text env (fetch_html env site.url)) with ⟨e, σ1⟩
        rw [ho] at hsf
        cases hm : (keyword_match (extract_text env (fetch_html env site.url))
            site.keywords).isEmpty <;>
          cases e <;>
          simp only [process_site, hf, Bool.false_eq_true, if_false, hl, if_neg ht,
            hm, if_true, ho] <;>
          exact hsf

/-- Helper: a site enjoying the invariant is classified `no-change` and
leaves the disk state untouched. -/
theorem process_site_of_inv (env : Env) (σ : Store) (site : Site)
    (h : Inv env σ site.url) :
    process_site env σ site =
      (.ok { url := site.url, status := "no-change" }, σ,
       [log_line env ("NO CHANGE | " ++ site.url)]) := by
  obtain ⟨hfe, ts, hσ⟩ := h
  exact process_site_no_change env σ site
    { timestamp := ts, text := extracted env site.url } hfe hσ rfl

/-- Helper: processing any site preserves the invariant of any url, given
that distinct urls never share a snapshot path. -/
theorem inv_preserved_process (env : Env) (σ : Store) (site : Site)
    (url : String)
    (hinj : ∀ a b : String, snapshot_path env a = snapshot_path env b → a = b)
    (h : Inv env σ url) :
    Inv env (process_site env σ site).2.1 url := by
  by_cases hpq : snapshot_path env site.url = snapshot_path env url
  · have hu : site.url = url := hinj _ _ hpq
    have h2 : Inv env σ site.url := by rw [hu]; exact h
    rw [process_site_of_inv env σ site h2]
    exact h
  · obtain ⟨hfe, ts, hσ⟩ := h
    refine ⟨hfe, ts, ?_⟩
    rw [process_site_frame env σ site (snapshot_path env url)
      (fun hc => hpq hc.symm)]
    exact hσ

/-- Helper: a whole cycle preserves the invariant of any url. -/
theorem inv_preserved_run (env : Env)
    (hinj : ∀ a b : String, snapshot_path env a = snapshot_path env b → a = b)
    (sites : List Site) (σ : Store) (url : String)
    (h : Inv env σ url) :
    Inv env (run_cycle env sites σ).2.1 url := by
  induction sites generalizing σ with
  | nil => exact h
  | cons s rest ih =>
    have h1 : Inv env (process_site env σ s).2.1 url :=
      inv_preserved_process env σ s url hinj h
    rw [run_cycle_cons]
    split
    · rename_i e σ1 lg heq
      rw [heq] at h1
      exact h1
    · rename_i r σ1 lg heq
      rw [heq] at h1
      have h2 := ih σ1 h1
      split
      · rename_i e2 σ2 lg2 heq2
        rw [heq2] at h2
        exact h2
      · rename_i rs σ2 lg2 heq2
        rw [heq2] at h2
        exact h2

/-- Helper: destructuring a successful cycle over a non-empty registry into
its head step and tail cycle. -/
theorem run_cycle_cons_ok (env : Env) (s : Site) (rest : List Site)
    (σ : Store) (res : List CheckResult) (σ2 : Store) (lg : List String)
    (h : run_cycle env (s :: rest) σ = (.ok res, σ2, lg)) :
    ∃ r σa lga res2 lgb,
      process_site env σ s = (.ok r, σa, lga) ∧
      run_cycle env rest σa = (.ok res2, σ2, lgb) ∧
      res = r :: res2 ∧ lg = lga ++ lgb := by
  rw [run_cycle_cons] at h
  split at h
  · exact absurd h (by simp)
  · rename_i r σa lga heq1
    split at h
    · exact absurd h (by simp)
    · rename_i res2 σb lgb heq2
      simp only [Prod.mk.injEq, Except.ok.injEq] at h
      obtain ⟨ha, hb, hc⟩ := h
      exact ⟨r, σa, lga, res2, lgb, heq1, by rw [heq2, hb],
        ha.symm, hc.symm⟩

/-- Helper: a successful cycle returns one result per registered site. -/
theorem run_cycle_length (env : Env) (sites : List Site) (σ : Store)
    (res : List CheckResult) (σ2 : Store) (lg : List String)
    (h : run_cycle env sites σ = (.ok res, σ2, lg)) :
    res.length = sites.length := by
  induction sites generalizing σ res σ2 lg with
  | nil =>
    simp only [run_cycle, Prod.mk.injEq, Except.ok.injEq] at h
    rw [← h.1]
    rfl
  | cons s rest ih =>
    obtain ⟨r, σa, lga, res2, lgb, hps, hrc, hres, hlg⟩ :=
      run_cycle_cons_ok env s rest σ res σ2 lg h
    subst hres
    simp only [List.length_cons, ih σa res2 σ2 lgb hrc]

/-- Helper: a site whose successful step reported `initialized` or
`no-change` satisfies the invariant in the step's post-state. -/
theorem process_site_establishes (env : Env) (σ : Store) (site : Site)
    (r : CheckResult) (σ1 : Store) (lg : List String)
    (h : process_site env σ site = (.ok r, σ1, lg))
    (hst : r.status = "initialized" ∨ r.status = "no-change") :
    Inv env σ1 site.url := by
  cases hf : py_starts_with (fetch_html env site.url) "ERROR_FETCHING" with
  | true =>
    simp only [process_site, hf, if_true, Prod.mk.injEq, Except.ok.injEq] at h
    obtain ⟨h1, h2, h3⟩ := h
    have hster : r.status = "error" := by rw [← h1]
    rcases hst with hst | hst <;> rw [hster] at hst <;>
      exact absurd hst (by decide)
  | false =>
    cases hσp : σ (snapshot_path env site.url) with
    | corrupt =>
      have hl : load_snapshot env σ site.url = .error .jsonDecodeError := by
        simp [load_snapshot, hσp]
      simp only [process_site, hf, Bool.false_eq_true, if_false, hl] at h
      exact absurd h (by simp)
    | absent =>
      have hl : load_snapshot env σ site.url = .ok none := by
        simp [load_snapshot, hσp]
      cases ho : env.saveOutcome (snapshot_path env site.url) with
      | ok =>
        simp only [process_site, hf, Bool.false_eq_true, if_false, hl, save_snapshot,
          ho, Prod.mk.injEq, Except.ok.injEq] at h
        obtain ⟨h1, h2, h3⟩ := h
        refine ⟨hf, env.now, ?_⟩
        rw [← h2]
        simp [store_write, extracted, extract_text]
      | failOpen =>
        simp only [process_site, hf, Bool.false_eq_true, if_false, hl, save_snapshot,
          ho] at h
        exact absurd h (by simp)
      | failMidWrite =>
        simp only [process_site, hf, Bool.false_eq_true, if_false, hl, save_snapshot,
          ho] at h
        exact absurd h (by simp)
    | snap sn =>
      have hl : load_snapshot env σ site.url = .ok (some sn) := by
        simp [load_snapshot, hσp]
      by_cases ht : extract_text env (fetch_html env site.url) = sn.text
      · simp only [process_site, hf, Bool.false_eq_true, if_false, hl, if_pos ht,
          Prod.mk.injEq, Except.ok.injEq] at h
        obtain ⟨h1, h2, h3⟩ := h
        refine ⟨hf, sn.timestamp, ?_⟩
        rw [← h2, hσp]
        have hx : extracted env site.url = sn.text := ht
        rw [hx]
      · simp only [process_site, hf, Bool.false_eq_true, if_false, hl,
          if_neg ht] at h
        split at h
        · split at h
          · exact absurd h (by simp)
          · simp only [Prod.mk.injEq, Except.ok.injEq] at h
            obtain ⟨h1, h2, h3⟩ := h
            have hster : r.status = "changed-but-no-keywords" := by rw [← h1]
            rcases hst with hst | hst <;> rw [hster] at hst <;>
              exact absurd hst (by decide)
        · split at h
          · exact absurd h (by simp)
          · simp only [Prod.mk.injEq, Except.ok.injEq] at h
            obtain ⟨h1, h2, h3⟩ := h
            have hster : r.status = "keyword-change" := by rw [← h1]
            rcases hst with hst | hst <;> rw [hster] at hst <;>
              exact absurd hst (by decide)

/-- Helper: a successful cycle leaves the invariant established, in its
final disk state, for every site it reported `initialized` or `no-change`. -/
theorem run_cycle_establishes (env : Env)
    (hinj : ∀ a b : String, snapshot_path env a = snapshot_path env b → a = b)
    (sites : List Site) (σ : Store) (res : List CheckResult) (σ2 : Store)
    (lg : List String)
    (h : run_cycle env sites σ = (.ok res, σ2, lg)) :
    ∀ i (hi : i < res.length) (hs : i < sites.length),
      ((res.get ⟨i, hi⟩).status = "initialized" ∨
       (res.get ⟨i, hi⟩).status = "no-change") →
      Inv env σ2 ((sites.get ⟨i, hs⟩).url) := by
  induction sites generalizing σ res σ2 lg with
  | nil =>
    intro i hi hs hst
    exact absurd hs (Nat.not_lt_zero i)
  | cons s rest ih =>
    obtain ⟨r, σa, lga, res2, lgb, hps, hrc, hres, hlg⟩ :=
      run_cycle_cons_ok env s rest σ res σ2 lg h
    subst hres
    intro i hi hs hst
    cases i with
    | zero =>
      have h1 : Inv env σa s.url :=
        process_site_establishes env σ s r σa lga hps hst
      have h2 : Inv env (run_cycle env rest σa).2.1 s.url :=
        inv_preserved_run env hinj rest σa s.url h1
      rw [hrc] at h2
      exact h2
    | succ j =>
      have hjs : j < rest.length := Nat.lt_of_succ_lt_succ hs
      have hji : j < res2.length := Nat.lt_of_succ_lt_succ hi
      exact ih σa res2 σ2 lgb hrc j hji hjs hst

/-- Helper: in a successful cycle, every site enjoying the invariant in the
cycle's starting disk state is reported `no-change`. -/
theorem run_cycle_no_change_of_inv (env : Env)
    (hinj : ∀ a b : String, snapshot_path env a = snapshot_path env b → a = b)
    (sites : List Site) (σ : Store) (res : List CheckResult) (σ2 : Store)
    (lg : List String)
    (h : run_cycle env sites σ = (.ok res, σ2, lg)) :
    ∀ i (hs : i < sites.length) (hi : i < res.length),
      Inv env σ ((sites.get ⟨i, hs⟩).url) →
      (res.get ⟨i, hi⟩).status = "no-change" := by
  induction sites generalizing σ res σ2 lg with
  | nil =>
    intro i hs
    exact absurd hs (Nat.not_lt_zero i)
  | cons s rest ih =>
    obtain ⟨r, σa, lga, res2, lgb, hps, hrc, hres, hlg⟩ :=
      run_cycle_cons_ok env s rest σ res σ2 lg h
    subst hres
    intro i hs hi hInvI
    cases i with
    | zero =>
      have hno := process_site_of_inv env σ s hInvI
      rw [hno] at hps
      simp only [Prod.mk.injEq, Except.ok.injEq] at hps
      rw [← hps.1]
      rfl
    | succ j =>
      have hjs : j < rest.length := Nat.lt_of_succ_lt_succ hs
      have hji : j < res2.length := Nat.lt_of_succ_lt_succ hi
      have hInv2 : Inv env (process_site env σ s).2.1
          ((rest.get ⟨j, hjs⟩).url) :=
        inv_preserved_process env σ s ((rest.get ⟨j, hjs⟩).url) hinj hInvI
      rw [hps] at hInv2
      exact ih σa res2 σ2 lgb hrc j hjs hji hInv2

/-- C5: idempotence of no-op cycles.  When the fetched content is identical
across two successive cycles (the environment is unchanged) and snapshot
paths do not collide, every target that the first cycle reported
`initialized` or `no-change` is reported `no-change` by the second cycle. -/
theorem c5_second_run_no_change (env : Env) (sites : List Site)
    (σ σ1 σ2 : Store) (res1 res2 : List CheckResult) (lg1 lg2 : List String)
    (hinj : ∀ a b : String, snapshot_path env a = snapshot_path env b → a = b)
    (h1 : run_cycle env sites σ = (.ok res1, σ1, lg1))
    (h2 : run_cycle env sites σ1 = (.ok res2, σ2, lg2))
    (i : Nat) (hi1 : i < res1.length) (hi2 : i < res2.length)
    (hst : (res1.get ⟨i, hi1⟩).status = "initialized" ∨
           (res1.get ⟨i, hi1⟩).status = "no-change") :
    (res2.get ⟨i, hi2⟩).status = "no-change" := by
  have hs : i < sites.length := by
    rw [← run_cycle_length env sites σ res1 σ1 lg1 h1]
    exact hi1
  have hInv : Inv env σ1 ((sites.get ⟨i, hs⟩).url) :=
    run_cycle_establishes env hinj sites σ res1 σ1 lg1 h1 i hi1 hs hst
  exact run_cycle_no_change_of_inv env hinj sites σ1 res2 σ2 lg2 h2 i hs hi2 hInv

/-- Helper: cancellation of a fixed enclosing context in string equations. -/
theorem string_append_cancel (pre suf a b : String)
    (h : pre ++ a ++ suf = pre ++ b ++ suf) : a = b := by
  have hd : pre.data ++ a.data ++ suf.data = pre.data ++ b.data ++ suf.data :=
    congrArg String.data h
  have h2 : a.data = b.data :=
    List.append_cancel_left (List.append_cancel_right hd)
  cases a
  cases b
  exact congrArg String.mk h2

/-- Helper: with the identity hash of `envA`, distinct urls get distinct
snapshot paths. -/
theorem envA_path_inj :
    ∀ a b : String, snapshot_path envA a = snapshot_path envA b → a = b :=
  fun a b h => string_append_cancel (SNAPSHOT_DIR ++ "/") ".json" a b h

/-- C5 witness: concretely, a target initialized by a first cycle over an
empty snapshot directory is reported `no-change` by an identical second
cycle. -/
theorem c5_second_run_no_change_witness :
    (([{ url := "site.example", status := "no-change" }] : List CheckResult).get
      ⟨0, Nat.one_pos⟩).status = "no-change" := by
  have h1 : run_cycle envA [siteW] σ0 =
      (.ok [{ url := "site.example", status := "initialized" }],
       (run_cycle envA [siteW] σ0).2.1, (run_cycle envA [siteW] σ0).2.2) := rfl
  have h2 : run_cycle envA [siteW] (run_cycle envA [siteW] σ0).2.1 =
      (.ok [{ url := "site.example", status := "no-change" }],
       (run_cycle envA [siteW] (run_cycle envA [siteW] σ0).2.1).2.1,
       (run_cycle envA [siteW] (run_cycle envA [siteW] σ0).2.1).2.2) := rfl
  exact c5_second_run_no_change envA [siteW] σ0
    (run_cycle envA [siteW] σ0).2.1
    (run_cycle envA [siteW] (run_cycle envA [siteW] σ0).2.1).2.1
    [{ url := "site.example", status := "initialized" }]
    [{ url := "site.example", status := "no-change" }]
    (run_cycle envA [siteW] σ0).2.2
    (run_cycle envA [siteW] (run_cycle envA [siteW] σ0).2.1).2.2
    envA_path_inj h1 h2 0 Nat.one_pos Nat.one_pos (Or.inl rfl)

end MonitorEngine
